import Mathlib

/-!
Shallow embedding of the coffee plugin manager (crates `coffee_lib` and
`coffee_cmd`) for checking the natural-language specification.

The embedding translates:
  * `coffee_lib/src/plugin.rs` — `PluginLang`, `Plugin`, the per-language
    default installer strategies (`get_executable_path`), `configure`,
    `get_executable`, `upgrade`;
  * `coffee_cmd/src/coffee/mod.rs` — `CoffeeManager` state, `inventory`,
    `install`, `add_remote`, snapshot persistence and host-config flushing.

External effects (shell execution, git clone, storage I/O, host-config
parsing) are modelled by an explicit environment `Env` of oracles, and the
on-disk artifacts (storage snapshot file, flushed coffee config fragment,
repository checkouts) by an explicit `World` state threaded through the
manager operations, mirroring the order of the mutations in the Rust code.
-/

namespace Coffee

/-- Error value carried by every fallible operation, mirroring
`CoffeeError { code, msg }` from `coffee_lib`. -/
structure CoffeeError where
  code : Nat
  msg : String
  deriving Repr, DecidableEq

/-- Mirrors the `error!` macro of `coffee_lib`, which builds a `CoffeeError`
from a message (the numeric code is immaterial to the claims checked here). -/
def errorMk (msg : String) : CoffeeError := ⟨1, msg⟩

/-- Plugin language definition, from `coffee_lib/src/plugin.rs`. -/
inductive PluginLang where
  | PyPip
  | PyPoetry
  | Go
  | Rust
  | Dart
  | JVM
  | JavaScript
  | TypeScript
  | Unknown
  deriving Repr, DecidableEq

/-- Manifest (`coffee.yml`) content relevant to `Plugin`: the optional
install script and the main entrypoint, mirroring `Conf.plugin.install` and
`Conf.plugin.main` of `coffee_lib/src/plugin_conf.rs`. -/
structure Conf where
  install : Option String
  main : String
  deriving Repr, DecidableEq

/-- Plugin struct definition, from `coffee_lib/src/plugin.rs`. -/
structure Plugin where
  name : String
  root_path : String
  path : String
  lang : PluginLang
  conf : Option Conf
  deriving Repr, DecidableEq

/-- Persisted repository descriptor
(`coffee_storage::model::repository::Repository`, kind `Git`). -/
structure RepositoryInfo where
  local_name : String
  url : String
  deriving Repr, DecidableEq

/-- Concrete git repository (`coffee_github::repository::Github`): local
name, remote url, and the set of plugins discovered in its checkout. -/
structure RepositoryM where
  local_name : String
  url : String
  plugins : List Plugin
  deriving Repr, DecidableEq

/-- Modelled from the spec: `Repository::get_plugin_by_name` (the concrete
implementation lives in `coffee_github`, not under the vendored sources)
"scans the checkout for plugin manifests/entrypoints and returns the
matching Plugin if present, else a not-found signal". -/
def RepositoryM.get_plugin_by_name (r : RepositoryM) (name : String) : Option Plugin :=
  r.plugins.find? (fun p => p.name == name)

/-- Manager configuration (`coffee_cmd::coffee::config::CoffeeConf`),
restricted to the fields the checked operations read or write. -/
structure CoffeeConf where
  plugins_path : List String
  cln_config_path : Option String
  deriving Repr, DecidableEq

/-- Structured core-lightning configuration (`clightningrpc_conf::CLNConf`)
as a list of key/value directives; `add_conf` appends one. -/
structure CLNConf where
  fields : List (String × String)
  deriving Repr, DecidableEq

/-- Modelled from the spec: `CLNConf::add_conf` (external crate
`clightningrpc_conf`) records one key/value directive in the manager-owned
fragment; the manager appends "plugin <path>" directives through it. -/
def CLNConf.add_conf (c : CLNConf) (k v : String) : CLNConf :=
  ⟨c.fields ++ [(k, v)]⟩

/-- Serialized projection persisted by the storage manager
(`CoffeStorageInfo { config, repositories }`). -/
structure CoffeStorageInfo where
  config : CoffeeConf
  repositories : List RepositoryInfo
  deriving Repr, DecidableEq

/-- In-memory manager state (`CoffeeManager` of `coffee_cmd`), restricted
to the fields the checked operations touch. -/
structure CoffeeManager where
  config : CoffeeConf
  repos : List RepositoryM
  coffe_cln_config : CLNConf
  cln_config : Option CLNConf
  deriving Repr, DecidableEq

/-- Mirrors `CoffeStorageInfo::from(&CoffeeManager)`: the snapshot of the
config plus one descriptor per registered repository, in order. -/
def CoffeeManager.storage_info (m : CoffeeManager) : CoffeStorageInfo :=
  ⟨m.config, m.repos.map (fun r => ⟨r.local_name, r.url⟩)⟩

/-- On-disk world surrounding the manager: the in-memory manager, the
persisted snapshot file, the flushed contents of the coffee-owned config
fragment, and the set of existing repository checkout directories. -/
structure World where
  mgr : CoffeeManager
  storageFile : Option CoffeStorageInfo
  hostFile : List (String × String)
  checkouts : List String
  deriving Repr, DecidableEq

/-- Environment of external-effect oracles: shell-script success by working
directory and script, snapshot-store success, config-flush success, remote
reachability, plugin discovery in a freshly cloned checkout, and host
config parsing. -/
structure Env where
  shOk : String → String → Bool
  storeOk : Bool
  flushOk : Bool
  cloneOk : String → Bool
  scan : String → List Plugin
  hostParse : String → Bool
  hostFields : String → List (String × String)
  coffeeParseOk : Bool
  coffeeFields : List (String × String)

/-- Error produced when a shell step exits non-zero or fails to spawn
(the `ProcessExecutionError` of the spec's taxonomy; raised by the `sh!`
macro of `coffee_lib`). -/
def shError : CoffeeError := ⟨1, "script exited with a non-zero code"⟩

/-- Error produced when the storage manager fails to persist the snapshot
(`StorageError` of the spec's taxonomy). -/
def storeError : CoffeeError := ⟨1, "storage: unable to store the snapshot"⟩

/-- Error produced when flushing the coffee-owned config fragment fails. -/
def flushError : CoffeeError := ⟨1, "config: unable to flush the coffee configuration"⟩

/-- Error produced when a repository checkout path already exists and so
cannot be created afresh by a clone. -/
def pathExistsError : CoffeeError := ⟨1, "repository: checkout path already exists"⟩

/-- Error produced when the remote url is unreachable during `init`. -/
def unreachableError : CoffeeError := ⟨1, "repository: remote unreachable"⟩

/-- Error produced when parsing the core-lightning host configuration
fails (`ConfigError` of the spec's taxonomy). -/
def confParseError : CoffeeError := ⟨1, "config: unable to parse the configuration file"⟩

/-- Mirrors the `sh!` macro: run `script` in directory `dir`; the `verbose`
flag only selects streamed versus captured output and does not change the
result; a non-zero exit propagates a `ProcessExecutionError`. -/
def sh (env : Env) (dir script : String) (verbose : Bool) : Except CoffeeError Unit :=
  if env.shOk dir script then .ok () else .error shError

/-- Per-language default installer strategy,
`PluginLang::get_executable_path` of `coffee_lib/src/plugin.rs`: Python
variants optionally install requirements and return the conventional
`<path>/<name>.py` entrypoint; every other language fails with its
unsupported-language error. -/
def PluginLang.get_executable_path (lang : PluginLang) (env : Env)
    (path name : String) (verbose install_requirements : Bool) :
    Except CoffeeError String :=
  match lang with
  | .PyPip =>
      if install_requirements then
        match sh env path "pip3 install -r requirements.txt" verbose with
        | .ok _ => .ok (path ++ "/" ++ name ++ ".py")
        | .error e => .error e
      else .ok (path ++ "/" ++ name ++ ".py")
  | .PyPoetry =>
      if install_requirements then
        match sh env path "pip3 install poetry poetry export -f requirements.txt --output requirements.txt pip3 install -r requirements.txt" verbose with
        | .ok _ => .ok (path ++ "/" ++ name ++ ".py")
        | .error e => .error e
      else .ok (path ++ "/" ++ name ++ ".py")
  | .Go => .error (errorMk "golang is not supported as default language, please us the coffee.yml manifest")
  | .Rust => .error (errorMk "rust is not supported as default language, please use the coffee.yml manifest")
  | .Dart => .error (errorMk "dart is not supported as default language, please use the cofee.yml manifest")
  | .JavaScript => .error (errorMk "js is not supported as default language, please use the coffee.yml manifest")
  | .TypeScript => .error (errorMk "ts is not supported as default language, please use the coffee.yml manifest")
  | .JVM => .error (errorMk "JVM is not supported as default language, please use the coffee.yml manifest")
  | .Unknown => .error (errorMk "unknown default install procedure, the language in undefined")

/-- Languages with no default installer recipe, paired with the exact
error `get_executable_path` returns for them; `none` for the two Python
variants, which do have a default recipe. -/
def PluginLang.unsupportedError : PluginLang → Option CoffeeError
  | .PyPip => none
  | .PyPoetry => none
  | .Go => some (errorMk "golang is not supported as default language, please us the coffee.yml manifest")
  | .Rust => some (errorMk "rust is not supported as default language, please use the coffee.yml manifest")
  | .Dart => some (errorMk "dart is not supported as default language, please use the cofee.yml manifest")
  | .JavaScript => some (errorMk "js is not supported as default language, please use the coffee.yml manifest")
  | .TypeScript => some (errorMk "ts is not supported as default language, please use the coffee.yml manifest")
  | .JVM => some (errorMk "JVM is not supported as default language, please use the coffee.yml manifest")
  | .Unknown => some (errorMk "unknown default install procedure, the language in undefined")

/-- Mirrors `Plugin::configure(verbose)`: when the manifest supplies an
install script, run it in the plugin's `root_path` and on success return
`<path>/<main>`; otherwise delegate to the language strategy with
`install_requirements = true`. -/
def Plugin.configure (p : Plugin) (env : Env) (verbose : Bool) :
    Except CoffeeError String :=
  match p.conf with
  | some conf =>
      match conf.install with
      | some script =>
          match sh env p.root_path script verbose with
          | .ok _ => .ok (p.path ++ "/" ++ conf.main)
          | .error e => .error e
      | none => p.lang.get_executable_path env p.path p.name verbose true
  | none => p.lang.get_executable_path env p.path p.name verbose true

/-- Mirrors `Plugin::get_executable()`: the side-effect-free resolver; for a
manifest install script it returns `<path>/<main>` without running anything,
otherwise it delegates to the language strategy with
`verbose = false, install_requirements = false`. -/
def Plugin.get_executable (p : Plugin) (env : Env) : Except CoffeeError String :=
  match p.conf with
  | some conf =>
      match conf.install with
      | some _ => .ok (p.path ++ "/" ++ conf.main)
      | none => p.lang.get_executable_path env p.path p.name false false
  | none => p.lang.get_executable_path env p.path p.name false false

/-- Execution outcome distinguishing normal returns from a Rust panic, used
to embed `todo!()`. -/
inductive TaskResult (ε α : Type) where
  | ok (v : α)
  | err (e : ε)
  | panicked (msg : String)
  deriving Repr, DecidableEq

/-- Mirrors `Plugin::upgrade()`, whose body is `todo!("not implemented
yet")`: it unconditionally panics. -/
def Plugin.upgrade (_p : Plugin) : TaskResult CoffeeError Unit :=
  .panicked "not implemented yet"

/-- Holds when the plugin's manifest supplies no install script (or there is
no manifest at all), so `configure` falls through to the language default. -/
def Plugin.noInstallScript (p : Plugin) : Prop :=
  match p.conf with
  | some c => c.install = none
  | none => True

instance (p : Plugin) : Decidable p.noInstallScript := by
  unfold Plugin.noInstallScript
  cases p.conf <;> infer_instance

/-- Modelled from the spec: `Github::init` (crate `coffee_github`, not under
the vendored sources) "performs the first fetch of a newly registered remote
into its checkout path; fails with a RepositoryError if the remote is
unreachable or the path cannot be created". The checkout path is derived
from the local name (`<root>/repositories/<local_name>`), so it cannot be
created afresh when a checkout for that local name already exists; on
success the clone is recorded and the checkout scanned for plugins. -/
def githubInit (env : Env) (w : World) (name url : String) :
    Except CoffeeError (RepositoryM × World) :=
  if w.checkouts.contains name then .error pathExistsError
  else if env.cloneOk url then
    .ok (⟨name, url, env.scan url⟩, { w with checkouts := w.checkouts ++ [name] })
  else .error unreachableError

/-- Mirrors `CoffeeManager::update_conf`: flush the coffee-owned config
fragment to its file. -/
def update_conf (env : Env) (w : World) : Except CoffeeError Unit × World :=
  if env.flushOk then (.ok (), { w with hostFile := w.mgr.coffe_cln_config.fields })
  else (.error flushError, w)

/-- Mirrors the store step `self.storage.store(&self.storage_info())`:
persist the snapshot of the current manager state. -/
def storeSnapshot (env : Env) (w : World) : Except CoffeeError Unit × World :=
  if env.storeOk then (.ok (), { w with storageFile := some w.mgr.storage_info })
  else (.error storeError, w)

/-- Error returned by `install` when no registered repository hosts a plugin
of the requested name. -/
def pluginNotFound (plugin : String) : CoffeeError :=
  ⟨1, "plugin `" ++ plugin ++ "` are not present inside the repositories"⟩

/-- Body of `CoffeeManager::install` once a repository's
`get_plugin_by_name` has returned a plugin: configure it; on success push
its path onto `config.plugins_path`, add a "plugin" directive to the
coffee-owned config, persist the snapshot, and flush the config — mutating
in exactly this order, as the Rust code does. -/
def installFound (env : Env) (w : World) (verbose : Bool) (pl : Plugin) :
    Except CoffeeError Unit × World :=
  match pl.configure env verbose with
  | .error e => (.error e, w)
  | .ok path =>
      let m := w.mgr
      let m := { m with
        config := { m.config with plugins_path := m.config.plugins_path ++ [path] },
        coffe_cln_config := m.coffe_cln_config.add_conf "plugin" path }
      let w1 := { w with mgr := m }
      match storeSnapshot env w1 with
      | (.error e, w2) => (.error e, w2)
      | (.ok _, w2) => update_conf env w2

/-- Scanning loop of `CoffeeManager::install` (`for repo in &self.repos`):
try each repository in registration order; the first whose
`get_plugin_by_name` returns a plugin wins; if none does, fail with the
plugin-not-found error. -/
def installLoop (env : Env) (w : World) (name : String) (verbose : Bool) :
    List RepositoryM → Except CoffeeError Unit × World
  | [] => (.error (pluginNotFound name), w)
  | repo :: rest =>
      match repo.get_plugin_by_name name with
      | some pl => installFound env w verbose pl
      | none => installLoop env w name verbose rest

/-- Mirrors `CoffeeManager::install(plugin)`: scan the registered
repositories in order and handle the first match. -/
def install (env : Env) (w : World) (name : String) (verbose : Bool) :
    Except CoffeeError Unit × World :=
  installLoop env w name verbose w.mgr.repos

/-- Mirrors `CoffeeManager::add_remote(name, url)`: build the repository,
`init()` it (propagating its failure before any mutation), push it onto the
registry, then persist the snapshot. -/
def add_remote (env : Env) (w : World) (name url : String) :
    Except CoffeeError Unit × World :=
  match githubInit env w name url with
  | .error e => (.error e, w)
  | .ok (repo, w1) =>
      let m := { w1.mgr with repos := w1.mgr.repos ++ [repo] }
      storeSnapshot env { w1 with mgr := m }

/-- Mirrors `CoffeeManager::load_cln_conf`: nothing to do when no host
config path is configured; otherwise parse the host file, propagating a
parse failure, and record the parsed configuration. -/
def load_cln_conf (env : Env) (m : CoffeeManager) :
    Except CoffeeError CoffeeManager :=
  match m.config.cln_config_path with
  | none => .ok m
  | some path =>
      if env.hostParse path then .ok { m with cln_config := some ⟨env.hostFields path⟩ }
      else .error confParseError

/-- Mirrors `CoffeeManager::inventory`, given the result of
`self.storage.load()`: any load failure (absent file as well as an
unparseable one) logs and returns `Ok` with the state untouched; a loaded
snapshot replaces the config and reconstructs the repositories, then the
coffee-owned fragment is parsed best-effort (a parse failure is only
logged) and the host config is loaded, propagating its failure. -/
def inventory (env : Env) (m : CoffeeManager)
    (loadResult : Except CoffeeError CoffeStorageInfo) :
    Except CoffeeError CoffeeManager :=
  match loadResult with
  | .error _ => .ok m
  | .ok store =>
      let m1 := { m with
        config := store.config,
        repos := m.repos ++ store.repositories.map
          (fun ri => ⟨ri.local_name, ri.url, env.scan ri.url⟩) }
      let m2 :=
        if env.coffeeParseOk then { m1 with coffe_cln_config := ⟨env.coffeeFields⟩ }
        else m1
      load_cln_conf env m2

/-! Concrete fixtures used by witnesses and counterexamples. -/

/-- Environment in which every external effect succeeds. -/
def envT : Env where
  shOk := fun _ _ => true
  storeOk := true
  flushOk := true
  cloneOk := fun _ => true
  scan := fun _ => []
  hostParse := fun _ => true
  hostFields := fun _ => []
  coffeeParseOk := true
  coffeeFields := []

/-- Environment in which everything succeeds except persisting the storage
snapshot. -/
def envNoStore : Env := { envT with storeOk := false }

/-- Concrete Python plugin without a manifest. -/
def pPy : Plugin := ⟨"summary", "/repo/summary", "/repo/summary", .PyPip, none⟩

/-- Concrete Go plugin without a manifest. -/
def pGo : Plugin := ⟨"gopl", "/repo/gopl", "/repo/gopl", .Go, none⟩

/-- Concrete plugin whose manifest supplies an install script and a main
entrypoint. -/
def pMan : Plugin := ⟨"man", "/repo/man", "/repo/man", .Go, some ⟨some "make check", "main.py"⟩⟩

/-- Concrete repository hosting `pPy`. -/
def repo1 : RepositoryM := ⟨"repo1", "https://example.com/r1.git", [pPy]⟩

/-- Concrete world with one registered repository and its checkout. -/
def w0 : World := ⟨⟨⟨[], none⟩, [repo1], ⟨[]⟩, none⟩, none, [], ["repo1"]⟩

/-- Concrete world with no registered repository. -/
def wE : World := ⟨⟨⟨[], none⟩, [], ⟨[]⟩, none⟩, none, [], []⟩

/-- Concrete empty manager, the state `inventory` starts from. -/
def mgrEmpty : CoffeeManager := ⟨⟨[], none⟩, [], ⟨[]⟩, none⟩

/-- Load error modelling a storage snapshot file that is present but cannot
be deserialized. -/
def storageParseFailure : CoffeeError := ⟨1, "storage: unable to deserialize the snapshot file"⟩

/-- Load error modelling an absent storage snapshot file. -/
def storageAbsent : CoffeeError := ⟨1, "storage: snapshot file does not exist"⟩

/-! Helper lemmas shared by several claim proofs. -/

/-- Languages without a default recipe make `get_executable_path` fail with
their fixed error, for every environment and flag combination. -/
lemma get_executable_path_unsupported (lang : PluginLang) (e : CoffeeError)
    (env : Env) (path name : String) (verbose install_requirements : Bool)
    (h : lang.unsupportedError = some e) :
    lang.get_executable_path env path name verbose install_requirements = .error e := by
  cases lang <;>
    simp_all [PluginLang.unsupportedError, PluginLang.get_executable_path]

/-- Without a manifest install script, `configure` is exactly the language
default strategy with `install_requirements = true`. -/
lemma configure_no_script (p : Plugin) (env : Env) (verbose : Bool)
    (hns : p.noInstallScript) :
    p.configure env verbose
      = p.lang.get_executable_path env p.path p.name verbose true := by
  unfold Plugin.configure
  cases hc : p.conf with
  | none => rfl
  | some c =>
      have hi : c.install = none := by
        simpa [Plugin.noInstallScript, hc] using hns
      simp [hi]

/-- Without a manifest install script, `get_executable` is exactly the
language default strategy with both flags false. -/
lemma get_executable_no_script (p : Plugin) (env : Env)
    (hns : p.noInstallScript) :
    p.get_executable env
      = p.lang.get_executable_path env p.path p.name false false := by
  unfold Plugin.get_executable
  cases hc : p.conf with
  | none => rfl
  | some c =>
      have hi : c.install = none := by
        simpa [Plugin.noInstallScript, hc] using hns
      simp [hi]

/-- A successful default-strategy resolution is independent of the verbose
and requirements flags: the returned path is the conventional one. -/
lemma get_executable_path_ok_flag_free (lang : PluginLang) (env : Env)
    (path name : String) (verbose install_requirements : Bool) (r : String)
    (h : lang.get_executable_path env path name verbose install_requirements = .ok r) :
    lang.get_executable_path env path name false false = .ok r := by
  cases lang with
  | PyPip =>
      unfold PluginLang.get_executable_path at h ⊢
      by_cases hir : install_requirements = true
      · rw [if_pos hir] at h
        cases hsh : sh env path "pip3 install -r requirements.txt" verbose with
        | ok u => rw [hsh] at h; simp_all
        | error e => rw [hsh] at h; simp_all
      · rw [if_neg hir] at h; simp_all
  | PyPoetry =>
      unfold PluginLang.get_executable_path at h ⊢
      by_cases hir : install_requirements = true
      · rw [if_pos hir] at h
        cases hsh : sh env path "pip3 install poetry poetry export -f requirements.txt --output requirements.txt pip3 install -r requirements.txt" verbose with
        | ok u => rw [hsh] at h; simp_all
        | error e => rw [hsh] at h; simp_all
      · rw [if_neg hir] at h; simp_all
  | Go => simp [PluginLang.get_executable_path] at h
  | Rust => simp [PluginLang.get_executable_path] at h
  | Dart => simp [PluginLang.get_executable_path] at h
  | JVM => simp [PluginLang.get_executable_path] at h
  | JavaScript => simp [PluginLang.get_executable_path] at h
  | TypeScript => simp [PluginLang.get_executable_path] at h
  | Unknown => simp [PluginLang.get_executable_path] at h

/-- The scanning loop of `install` skips every repository in which the
plugin name does not resolve. -/
lemma installLoop_skip (env : Env) (w : World) (name : String) (verbose : Bool)
    (pre rest : List RepositoryM)
    (hpre : ∀ r' ∈ pre, r'.get_plugin_by_name name = none) :
    installLoop env w name verbose (pre ++ rest)
      = installLoop env w name verbose rest := by
  induction pre with
  | nil => rfl
  | cons r pre ih =>
      have hr : r.get_plugin_by_name name = none := hpre r (by simp)
      have ih' := ih (fun r' hr' => hpre r' (by simp [hr']))
      simpa [installLoop, hr] using ih'

/-- When no repository in the list resolves the name, the scanning loop
fails with the plugin-not-found error and leaves the world untouched. -/
lemma installLoop_all_none (env : Env) (w : World) (name : String)
    (verbose : Bool) (l : List RepositoryM)
    (hnone : ∀ r ∈ l, r.get_plugin_by_name name = none) :
    installLoop env w name verbose l = (.error (pluginNotFound name), w) := by
  induction l with
  | nil => rfl
  | cons r rest ih =>
      have hr : r.get_plugin_by_name name = none := hnone r (by simp)
      have ih' := ih (fun r' hr' => hnone r' (by simp [hr']))
      simpa [installLoop, hr] using ih'

/-! Claim theorems. -/

/-- C10: for every plugin value, `Plugin::upgrade()` never returns, neither
`Ok` nor `Err`: its body is `todo!("not implemented yet")`, so it
unconditionally panics with that message. -/
theorem upgrade_always_panics (p : Plugin) :
    Plugin.upgrade p = .panicked "not implemented yet" := rfl

/-- C5: for every language without a default recipe (Go, Rust, Dart,
JavaScript, TypeScript, JVM, Unknown — exactly those with an
`unsupportedError`), the default installer strategy fails with that
language's unsupported-language error for every combination of the
`verbose` and `install_requirements` flags, and `configure` of a plugin of
that language with no manifest install script fails with the same error. -/
theorem unsupported_language_configure_fails (lang : PluginLang)
    (e : CoffeeError) (env : Env) (path name : String)
    (verbose install_requirements : Bool) (p : Plugin)
    (h : lang.unsupportedError = some e) (hl : p.lang = lang)
    (hns : p.noInstallScript) :
    lang.get_executable_path env path name verbose install_requirements = .error e
      ∧ p.configure env verbose = .error e := by
  refine ⟨get_executable_path_unsupported _ _ _ _ _ _ _ h, ?_⟩
  rw [configure_no_script p env verbose hns, hl]
  exact get_executable_path_unsupported _ _ _ _ _ _ _ h

theorem unsupported_language_configure_fails_witness :
    PluginLang.get_executable_path .Go envT "/p" "x" false true
        = .error (errorMk "golang is not supported as default language, please us the coffee.yml manifest")
      ∧ Plugin.configure pGo envT false
        = .error (errorMk "golang is not supported as default language, please us the coffee.yml manifest") :=
  unsupported_language_configure_fails .Go _ envT "/p" "x" false true pGo rfl rfl
    (by trivial)

/-- C7: `configure(verbose)` resolves the executable path as follows: when
the manifest supplies an install script, it runs the script's shell
commands in the plugin's root directory (the `verbose` flag is forwarded to
the shell runner, which streams output exactly when it is set) and on
success returns the plugin's path joined with the manifest's declared main
entrypoint; without an install script, for the PyPip and PyPoetry language
tags it runs the requirements installation and returns the conventional
entrypoint `<path>/<name>.py`. -/
theorem configure_path_resolution (p : Plugin) (env : Env) (verbose : Bool) :
    (∀ c script, p.conf = some c → c.install = some script →
        p.configure env verbose
          = (match sh env p.root_path script verbose with
             | .ok _ => .ok (p.path ++ "/" ++ c.main)
             | .error e => .error e))
    ∧ (p.noInstallScript → p.lang = .PyPip →
        p.configure env verbose
          = (match sh env p.path "pip3 install -r requirements.txt" verbose with
             | .ok _ => .ok (p.path ++ "/" ++ p.name ++ ".py")
             | .error e => .error e))
    ∧ (p.noInstallScript → p.lang = .PyPoetry →
        p.configure env verbose
          = (match sh env p.path "pip3 install poetry poetry export -f requirements.txt --output requirements.txt pip3 install -r requirements.txt" verbose with
             | .ok _ => .ok (p.path ++ "/" ++ p.name ++ ".py")
             | .error e => .error e)) := by
  refine ⟨?_, ?_, ?_⟩
  · intro c script hc hi
    simp [Plugin.configure, hc, hi]
  · intro hns hl
    rw [configure_no_script p env verbose hns, hl]
    simp [PluginLang.get_executable_path]
  · intro hns hl
    rw [configure_no_script p env verbose hns, hl]
    simp [PluginLang.get_executable_path]

theorem configure_path_resolution_witness :
    Plugin.configure pMan envT true = .ok "/repo/man/main.py"
      ∧ Plugin.configure pPy envT false = .ok "/repo/summary/summary.py" := by
  constructor
  · exact ((configure_path_resolution pMan envT true).1
      ⟨some "make check", "main.py"⟩ "make check" rfl rfl).trans rfl
  · exact ((configure_path_resolution pPy envT false).2.1 (by trivial) rfl).trans rfl

/-- C9: the two path-resolution variants agree: whenever
`configure(verbose)` succeeds with path `p`, the side-effect-free
`get_executable()` succeeds with the same path; and whenever the plugin's
language has no default recipe and no manifest install script overrides it,
both variants fail with the same unsupported-language error. -/
theorem configure_agrees_with_get_executable (p : Plugin) (env : Env)
    (verbose : Bool) :
    (∀ path, p.configure env verbose = .ok path → p.get_executable env = .ok path)
    ∧ (∀ e, p.lang.unsupportedError = some e → p.noInstallScript →
        p.configure env verbose = .error e ∧ p.get_executable env = .error e) := by
  constructor
  · intro path hok
    cases hc : p.conf with
    | some c =>
        cases hi : c.install with
        | some s =>
            simp only [Plugin.configure, hc, hi] at hok
            cases hsh : sh env p.root_path s verbose with
            | ok u =>
                rw [hsh] at hok
                simp_all [Plugin.get_executable]
            | error e => rw [hsh] at hok; simp_all
        | none =>
            have hns : p.noInstallScript := by
              simp [Plugin.noInstallScript, hc, hi]
            rw [configure_no_script p env verbose hns] at hok
            rw [get_executable_no_script p env hns]
            exact get_executable_path_ok_flag_free _ _ _ _ _ _ _ hok
    | none =>
        have hns : p.noInstallScript := by
          simp [Plugin.noInstallScript, hc]
        rw [configure_no_script p env verbose hns] at hok
        rw [get_executable_no_script p env hns]
        exact get_executable_path_ok_flag_free _ _ _ _ _ _ _ hok
  · intro e he hns
    constructor
    · rw [configure_no_script p env verbose hns]
      exact get_executable_path_unsupported _ _ _ _ _ _ _ he
    · rw [get_executable_no_script p env hns]
      exact get_executable_path_unsupported _ _ _ _ _ _ _ he

theorem configure_agrees_with_get_executable_witness :
    Plugin.get_executable pPy envT = .ok "/repo/summary/summary.py"
      ∧ Plugin.configure pGo envT true
        = .error (errorMk "golang is not supported as default language, please us the coffee.yml manifest") := by
  constructor
  · exact (configure_agrees_with_get_executable pPy envT false).1
      "/repo/summary/summary.py" rfl
  · exact ((configure_agrees_with_get_executable pGo envT true).2 _ rfl
      (by trivial)).1

/-- When the scanning loop of `install` ends in an error other than the
snapshot-store or config-flush errors, the world is left untouched. -/
lemma installLoop_error_pure (env : Env) (w : World) (name : String)
    (verbose : Bool) (l : List RepositoryM) (e : CoffeeError)
    (h1 : (installLoop env w name verbose l).1 = .error e)
    (h2 : e ≠ storeError) (h3 : e ≠ flushError) :
    (installLoop env w name verbose l).2 = w := by
  induction l with
  | nil => rfl
  | cons r rest ih =>
      cases hg : r.get_plugin_by_name name with
      | none =>
          simp only [installLoop, hg] at h1 ⊢
          exact ih h1
      | some pl =>
          simp only [installLoop, hg] at h1 ⊢
          cases hcf : pl.configure env verbose with
          | error e' => simp only [installFound, hcf]
          | ok path =>
              simp only [installFound, hcf, storeSnapshot, update_conf] at h1 ⊢
              by_cases hs : env.storeOk = true
              · simp only [hs, if_true] at h1 ⊢
                by_cases hf : env.flushOk = true
                · simp [hf] at h1
                · simp [hf] at h1
                  exact absurd h1.symm h3
              · simp only [hs] at h1 ⊢
                simp at h1
                exact absurd h1.symm h2

/-! Claim theorems for the manager operations. -/

/-- C1: `install` scans the registered repositories in registration order
and uses the first repository whose `get_plugin_by_name` returns a plugin:
with every earlier repository returning no match, `install` behaves exactly
as the handler of that repository's plugin, and on a successful configure
(with working persistence) it is that plugin's executable path that is
appended to the recorded plugin paths and to the coffee-owned host-config
directives. -/
theorem install_first_registered_repo_wins (env : Env) (w : World)
    (name : String) (verbose : Bool) (pre post : List RepositoryM)
    (r : RepositoryM) (pl : Plugin)
    (hrepos : w.mgr.repos = pre ++ r :: post)
    (hpre : ∀ r' ∈ pre, r'.get_plugin_by_name name = none)
    (hr : r.get_plugin_by_name name = some pl) :
    install env w name verbose = installFound env w verbose pl
      ∧ (∀ path, pl.configure env verbose = .ok path →
          env.storeOk = true → env.flushOk = true →
          (install env w name verbose).1 = .ok ()
            ∧ (install env w name verbose).2.mgr.config.plugins_path
                = w.mgr.config.plugins_path ++ [path]
            ∧ (install env w name verbose).2.mgr.coffe_cln_config.fields
                = w.mgr.coffe_cln_config.fields ++ [("plugin", path)]) := by
  have hmain : install env w name verbose = installFound env w verbose pl := by
    unfold install
    rw [hrepos, installLoop_skip env w name verbose pre _ hpre]
    simp [installLoop, hr]
  refine ⟨hmain, ?_⟩
  intro path hok hstore hflush
  rw [hmain]
  simp [installFound, hok, storeSnapshot, update_conf, hstore, hflush,
    CLNConf.add_conf]

theorem install_first_registered_repo_wins_witness :
    install envT w0 "summary" false = installFound envT w0 false pPy
      ∧ (install envT w0 "summary" false).1 = .ok () := by
  have h := install_first_registered_repo_wins envT w0 "summary" false [] []
    repo1 pPy rfl (by simp) rfl
  exact ⟨h.1, (h.2 "/repo/summary/summary.py" rfl rfl rfl).1⟩

/-- C2 counterexample: an `install` execution that fails (because the
snapshot store fails after a successful configure) and nevertheless leaves a
partial entry behind: the plugin path has already been recorded in the
manager's state, which started empty. This refutes the claim that every
erroring `install`/`add_remote` leaves the state exactly as before the
call. -/
theorem install_store_failure_mutates_state :
    (install envNoStore w0 "summary" false).1 = .error storeError
      ∧ (install envNoStore w0 "summary" false).2.mgr.config.plugins_path
          = ["/repo/summary/summary.py"]
      ∧ w0.mgr.config.plugins_path = [] := by
  refine ⟨rfl, rfl, rfl⟩

/-- C2 amended: failures that happen before the persistence steps — a
failed repository `init` in `add_remote`, and a failed configure or a
plugin-not-found in `install` — leave the whole state (registry, recorded
plugin paths, host-config directives, persisted snapshot, checkouts)
exactly as before the call; only failures of the snapshot store or of the
host-config flush, which in the code run after the in-memory mutations,
can leave partial entries. -/
theorem error_without_persistence_leaves_state_unchanged (env : Env)
    (w : World) (name url : String) (verbose : Bool) (e : CoffeeError) :
    ((install env w name verbose).1 = .error e → e ≠ storeError →
        e ≠ flushError → (install env w name verbose).2 = w)
      ∧ ((add_remote env w name url).1 = .error e → e ≠ storeError →
        (add_remote env w name url).2 = w) := by
  constructor
  · intro h1 h2 h3
    exact installLoop_error_pure env w name verbose w.mgr.repos e h1 h2 h3
  · intro h1 h2
    unfold add_remote at h1 ⊢
    cases hg : githubInit env w name url with
    | error e' => simp only [hg]
    | ok pw =>
        obtain ⟨repo, w1⟩ := pw
        simp only [hg, storeSnapshot] at h1 ⊢
        by_cases hs : env.storeOk = true
        · simp [hs] at h1
        · simp only [hs] at h1 ⊢
          simp at h1
          exact absurd h1.symm h2

theorem error_without_persistence_leaves_state_unchanged_witness :
    (install envT wE "x" false).2 = wE :=
  (error_without_persistence_leaves_state_unchanged envT wE "x" "u" false
    (pluginNotFound "x")).1 rfl (by decide) (by decide)

/-- C3: with the checkout of an already-registered repository named `n` on
disk and exactly one registry descriptor carrying `local_name = n`, a
second `add_remote(n, u)` fails (its `init` cannot create the checkout path
afresh) and leaves the whole state unchanged, so exactly one descriptor
with `local_name = n` remains. -/
theorem add_remote_duplicate_name_fails (env : Env) (w : World) (n u : String)
    (hcheckout : n ∈ w.checkouts)
    (hone : (w.mgr.repos.filter (fun r => r.local_name == n)).length = 1) :
    (add_remote env w n u).1 = .error pathExistsError
      ∧ (add_remote env w n u).2 = w
      ∧ ((add_remote env w n u).2.mgr.repos.filter
          (fun r => r.local_name == n)).length = 1 := by
  have h : add_remote env w n u = (.error pathExistsError, w) := by
    unfold add_remote githubInit
    simp [hcheckout]
  exact ⟨by rw [h], by rw [h], by rw [h]; exact hone⟩

theorem add_remote_duplicate_name_fails_witness :
    (add_remote envT w0 "repo1" "https://example.com/other.git").1
        = .error pathExistsError
      ∧ (add_remote envT w0 "repo1" "https://example.com/other.git").2 = w0 := by
  have h := add_remote_duplicate_name_fails envT w0 "repo1"
    "https://example.com/other.git" (by decide) (by decide)
  exact ⟨h.1, h.2.1⟩

/-- C4: when no registered repository hosts a plugin of the requested name,
`install` fails with the plugin-not-found error and returns the world
unchanged — in particular the persisted storage snapshot and the flushed
host config are byte-identical to before the call. -/
theorem install_missing_plugin_not_found (env : Env) (w : World)
    (name : String) (verbose : Bool)
    (hnone : ∀ r ∈ w.mgr.repos, r.get_plugin_by_name name = none) :
    install env w name verbose = (.error (pluginNotFound name), w)
      ∧ (install env w name verbose).2.storageFile = w.storageFile
      ∧ (install env w name verbose).2.hostFile = w.hostFile := by
  have h : install env w name verbose = (.error (pluginNotFound name), w) :=
    installLoop_all_none env w name verbose w.mgr.repos hnone
  exact ⟨h, by rw [h], by rw [h]⟩

theorem install_missing_plugin_not_found_witness :
    install envT wE "x" false = (.error (pluginNotFound "x"), wE) :=
  (install_missing_plugin_not_found envT wE "x" false (by simp [wE])).1

/-- C6 counterexample: a startup load whose snapshot file is present but
unparseable — the storage manager reports a deserialization failure — does
not fail with a storage error: `inventory` swallows the failure and starts
with the empty state, exactly as for an absent file. This refutes the
claim that an unparseable snapshot fails the load with StorageError. -/
theorem inventory_unparseable_snapshot_silently_empty :
    inventory envT mgrEmpty (.error storageParseFailure) = .ok mgrEmpty := rfl

/-- C6 amended: every failing snapshot load — the file being absent as well
as the file being present but unparseable — makes `inventory` return
success with the manager state untouched (empty on startup); no
StorageError is ever surfaced by the startup load. -/
theorem inventory_load_failure_gives_empty_state (env : Env)
    (m : CoffeeManager) (e : CoffeeError) :
    inventory env m (.error e) = .ok m := rfl

end Coffee
